import Mathlib

/-!
# Plate kinematics engine of `mobile_prototype.py`

Shallow embedding, over the real numbers, of the pure computational core of
the African-plate drift prototype: the Euler-pole velocity conversion
`euler_to_vel`, the linear position extrapolation `predict_position`, the
displacement magnitude, and the elapsed-years helper `years_between`.
Python's `math.radians`/`math.degrees` become the evident real functions,
`math.sqrt` becomes `Real.sqrt`, and the 64-bit floats of the source are
modelled as exact reals.
-/

open Real

noncomputable section

/-- `math.radians`: degrees to radians. -/
def radians (x : ℝ) : ℝ := x * (Real.pi / 180)

/-- `math.degrees`: radians to degrees. -/
def degrees (x : ℝ) : ℝ := x * (180 / Real.pi)

/-- Earth radius in meters, the constant `R = 6371000.0` of the source. -/
def R : ℝ := 6371000

/-- `years_between(d1, d2)` from the source: `(d2 - d1).days / 365.25`.
Dates are modelled by their day numbers, so `(d2 - d1).days` is `d2 - d1`. -/
def years_between (d1 d2 : ℤ) : ℝ := ((d2 : ℝ) - (d1 : ℝ)) / 365.25

/-- `euler_to_vel` from the source, line for line: spherical-to-Cartesian
unit vector `r`, angular-velocity vector `w`, cross product `v = w × r`,
scaling by `R`, projection onto the local east and north unit vectors, and
conversion of m/yr to mm/yr. -/
def euler_to_vel (lat_deg lon_deg pole_lat_deg pole_lon_deg omega_deg_Myr : ℝ) :
    ℝ × ℝ :=
  let lat := radians lat_deg
  let lon := radians lon_deg
  let plat := radians pole_lat_deg
  let plon := radians pole_lon_deg
  let omega_rad := radians omega_deg_Myr / 1000000
  let r : ℝ × ℝ × ℝ :=
    (Real.cos lat * Real.cos lon, Real.cos lat * Real.sin lon, Real.sin lat)
  let w : ℝ × ℝ × ℝ :=
    (omega_rad * Real.cos plat * Real.cos plon,
     omega_rad * Real.cos plat * Real.sin plon,
     omega_rad * Real.sin plat)
  let v : ℝ × ℝ × ℝ :=
    (w.2.1 * r.2.2 - w.2.2 * r.2.1,
     w.2.2 * r.1 - w.1 * r.2.2,
     w.1 * r.2.1 - w.2.1 * r.1)
  let v_m_per_yr : ℝ × ℝ × ℝ := (v.1 * R, v.2.1 * R, v.2.2 * R)
  let east : ℝ × ℝ × ℝ := (-Real.sin lon, Real.cos lon, 0)
  let north : ℝ × ℝ × ℝ :=
    (-Real.sin lat * Real.cos lon, -Real.sin lat * Real.sin lon, Real.cos lat)
  let ve := v_m_per_yr.1 * east.1 + v_m_per_yr.2.1 * east.2.1 +
    v_m_per_yr.2.2 * east.2.2
  let vn := v_m_per_yr.1 * north.1 + v_m_per_yr.2.1 * north.2.1 +
    v_m_per_yr.2.2 * north.2.2
  (ve * 1000, vn * 1000)

/-- `predict_position` from the source: convert mm/yr to m/yr, linear
latitude change `vn·t/R`, longitude change `ve·t/(R·cos lat)`, both added in
degrees to the original coordinates. -/
def predict_position (lat lon ve_mm_yr vn_mm_yr years : ℝ) : ℝ × ℝ :=
  let ve := ve_mm_yr / 1000
  let vn := vn_mm_yr / 1000
  let dlat := vn * years / R
  let dlon := ve * years / (R * Real.cos (radians lat))
  (lat + degrees dlat, lon + degrees dlon)

/-- The displacement magnitude computed by the source
(`displacement_mm` at line 410 and `disp_t` in the time-series loop):
`sqrt((ve*years)**2 + (vn*years)**2)`. -/
def displacement_mm (ve_mm_yr vn_mm_yr years : ℝ) : ℝ :=
  Real.sqrt ((ve_mm_yr * years) ^ 2 + (vn_mm_yr * years) ^ 2)

/-- Cross product of two vectors in `ℝ × ℝ × ℝ`, used to state the
spec-side formula `v = w × r`. -/
def cross (a b : ℝ × ℝ × ℝ) : ℝ × ℝ × ℝ :=
  (a.2.1 * b.2.2 - a.2.2 * b.2.1,
   a.2.2 * b.1 - a.1 * b.2.2,
   a.1 * b.2.1 - a.2.1 * b.1)

/-- Dot product on `ℝ × ℝ × ℝ`. -/
def dot (a b : ℝ × ℝ × ℝ) : ℝ := a.1 * b.1 + a.2.1 * b.2.1 + a.2.2 * b.2.2

/-- Scalar multiple of a vector in `ℝ × ℝ × ℝ`. -/
def scale (c : ℝ) (a : ℝ × ℝ × ℝ) : ℝ × ℝ × ℝ := (c * a.1, c * a.2.1, c * a.2.2)

/-- The unit radial vector of the spec at a point given in degrees. -/
def rvec (lat_deg lon_deg : ℝ) : ℝ × ℝ × ℝ :=
  (Real.cos (radians lat_deg) * Real.cos (radians lon_deg),
   Real.cos (radians lat_deg) * Real.sin (radians lon_deg),
   Real.sin (radians lat_deg))

/-- The angular-velocity vector of the spec: rotation rate in rad/yr times
the unit vector of the pole. -/
def wvec (pole_lat_deg pole_lon_deg omega_deg_Myr : ℝ) : ℝ × ℝ × ℝ :=
  scale (radians omega_deg_Myr / 1000000) (rvec pole_lat_deg pole_lon_deg)

/-- The local east unit vector of the spec. -/
def eastvec (lon_deg : ℝ) : ℝ × ℝ × ℝ :=
  (-Real.sin (radians lon_deg), Real.cos (radians lon_deg), 0)

/-- The local north unit vector of the spec. -/
def northvec (lat_deg lon_deg : ℝ) : ℝ × ℝ × ℝ :=
  (-Real.sin (radians lat_deg) * Real.cos (radians lon_deg),
   -Real.sin (radians lat_deg) * Real.sin (radians lon_deg),
   Real.cos (radians lat_deg))

/-- Composition of the two `predict_position` calls of the round-trip
property: forward by `t`, then backward by `-t` from the predicted point. -/
def roundtrip (lat lon ve vn t : ℝ) : ℝ × ℝ :=
  let p := predict_position lat lon ve vn t
  predict_position p.1 p.2 ve vn (-t)

/-- Modelled from the spec: the typed out-of-domain failure the error-handling
design prescribes for latitudes within a small epsilon of the poles
(`none` when `90 - eps ≤ |lat|`), falling back to the code's
`predict_position` elsewhere. The source itself contains no such check. -/
def predictChecked (eps lat lon ve vn t : ℝ) : Option (ℝ × ℝ) :=
  if 90 - eps ≤ |lat| then none
  else some (predict_position lat lon ve vn t)

end

/-- **C2.** `predict_position` returns exactly the linear extrapolation of
the spec: latitude shifted by `degrees((vn/1000·t)/R)` and longitude by
`degrees((ve/1000·t)/(R·cos(radians lat)))`, both added to the original
coordinates. -/
theorem predict_position_formula (lat lon ve vn t : ℝ) :
    predict_position lat lon ve vn t =
      (lat + degrees (vn / 1000 * t / R),
       lon + degrees (ve / 1000 * t / (R * Real.cos (radians lat)))) := by
  rfl

/-- **C1.** `euler_to_vel` computes exactly the spec formula: the east and
north components, in mm/yr, of `v = w × r` scaled by `R`, where `r` is the
unit radial vector at the point, `w` the rotation vector of the pole in
rad/yr, and east/north are dot products with the local east and north unit
vectors. -/
theorem euler_to_vel_spec (lat lon plat plon omega : ℝ) :
    euler_to_vel lat lon plat plon omega =
      (1000 * dot (scale R (cross (wvec plat plon omega) (rvec lat lon)))
          (eastvec lon),
       1000 * dot (scale R (cross (wvec plat plon omega) (rvec lat lon)))
          (northvec lat lon)) := by
  simp only [euler_to_vel, wvec, rvec, eastvec, northvec, cross, dot, scale,
    Prod.mk.injEq]
  constructor <;> ring

/-- **C8.** At the equator with the pole at the north pole, the velocity is
purely east-west: the north component of `euler_to_vel 0 lon 90 plon omega`
is exactly `0` in real arithmetic. -/
theorem euler_to_vel_equator_north_pole (lon plon omega : ℝ) :
    (euler_to_vel 0 lon 90 plon omega).2 = 0 := by
  have h90 : radians 90 = Real.pi / 2 := by
    rw [radians]; ring
  simp only [euler_to_vel, h90, Real.cos_pi_div_two, Real.sin_pi_div_two]
  have h0 : radians 0 = 0 := by rw [radians]; ring
  simp [h0]

/-- **C5.** Zero elapsed time is the identity: `predict_position` at
`years = 0` returns the point unchanged, and the displacement magnitude at
`years = 0` is `0`. -/
theorem predict_position_zero_identity (lat lon ve vn : ℝ) :
    predict_position lat lon ve vn 0 = (lat, lon) ∧
      displacement_mm ve vn 0 = 0 := by
  constructor
  · simp [predict_position, degrees]
  · simp [displacement_mm]

/-- **C3.** The displacement magnitude is the Euclidean combination of the
two linear displacement components: it equals
`sqrt((ve·t)² + (vn·t)²)`, the Euclidean norm of the vector
`(ve·t, vn·t)`. -/
theorem displacement_mm_euclidean (ve vn t : ℝ) :
    displacement_mm ve vn t = Real.sqrt ((ve * t) ^ 2 + (vn * t) ^ 2) ∧
      displacement_mm ve vn t =
        ‖((WithLp.equiv 2 (Fin 2 → ℝ)).symm ![ve * t, vn * t] :
            EuclideanSpace ℝ (Fin 2))‖ := by
  refine ⟨rfl, ?_⟩
  rw [EuclideanSpace.norm_eq, displacement_mm]
  simp [Fin.sum_univ_two, sq_abs]

/-- **C7.** For fixed velocity, the displacement magnitude is monotonically
non-decreasing in the elapsed time on `t ≥ 0`: if `0 ≤ t1 ≤ t2` then the
displacement at `t1` is at most the displacement at `t2`. -/
theorem displacement_mm_monotone (ve vn t1 t2 : ℝ) (h0 : 0 ≤ t1)
    (h12 : t1 ≤ t2) : displacement_mm ve vn t1 ≤ displacement_mm ve vn t2 := by
  rw [displacement_mm, displacement_mm]
  apply Real.sqrt_le_sqrt
  have he : (ve * t1) ^ 2 ≤ (ve * t2) ^ 2 := by
    rw [mul_pow, mul_pow]
    exact mul_le_mul_of_nonneg_left (pow_le_pow_left₀ h0 h12 2) (sq_nonneg ve)
  have hn : (vn * t1) ^ 2 ≤ (vn * t2) ^ 2 := by
    rw [mul_pow, mul_pow]
    exact mul_le_mul_of_nonneg_left (pow_le_pow_left₀ h0 h12 2) (sq_nonneg vn)
  linarith

/-- Witness for `displacement_mm_monotone` at a concrete input. -/
theorem displacement_mm_monotone_witness :
    (0 : ℝ) ≤ 1 ∧ (1 : ℝ) ≤ 2 ∧
      displacement_mm 3 4 1 ≤ displacement_mm 3 4 2 :=
  ⟨by norm_num, by norm_num,
    displacement_mm_monotone 3 4 1 2 (by norm_num) (by norm_num)⟩

/-- **C10.** The displacement magnitude is `|t|` times the speed
`sqrt(ve² + vn²)`; hence it is non-negative and symmetric in the sign of
`t`, so backward integration never yields a negative displacement. -/
theorem displacement_mm_abs_mul (ve vn t : ℝ) :
    displacement_mm ve vn t = |t| * Real.sqrt (ve ^ 2 + vn ^ 2) ∧
      0 ≤ displacement_mm ve vn t ∧
      displacement_mm ve vn (-t) = displacement_mm ve vn t := by
  have key : ∀ s : ℝ, displacement_mm ve vn s = |s| * Real.sqrt (ve ^ 2 + vn ^ 2) := by
    intro s
    have h1 : (ve * s) ^ 2 + (vn * s) ^ 2 = s ^ 2 * (ve ^ 2 + vn ^ 2) := by ring
    rw [displacement_mm, h1, Real.sqrt_mul (sq_nonneg s), Real.sqrt_sq_eq_abs]
  refine ⟨key t, ?_, ?_⟩
  · exact Real.sqrt_nonneg _
  · rw [key t, key (-t), abs_neg]

/-- **C9 counterexample.** A degenerate (backward) span does not produce a
zero-or-negative displacement: at velocity `(3, 4)` and elapsed time `-1`
the displacement magnitude is `5`, which is not `≤ 0`. -/
theorem displacement_negative_time_positive :
    displacement_mm 3 4 (-1) = 5 ∧ ¬ displacement_mm 3 4 (-1) ≤ 0 := by
  have h5 : displacement_mm 3 4 (-1) = 5 := by
    rw [displacement_mm]
    rw [show ((3:ℝ) * -1) ^ 2 + (4 * -1) ^ 2 = 5 ^ 2 by norm_num]
    exact Real.sqrt_sq (by norm_num)
  exact ⟨h5, by rw [h5]; norm_num⟩

/-- **C9 (amended).** A degenerate span (end day not after start day) gives
`years_between ≤ 0`; `predict_position` accepts zero and negative elapsed
years and negative time integrates backward (predicting over `-t` equals
predicting with the negated velocity over `t`); the displacement magnitude
stays non-negative rather than turning negative. -/
theorem degenerate_span_defined (d1 d2 : ℤ) (h : d2 ≤ d1) (lat lon ve vn t : ℝ) :
    years_between d1 d2 ≤ 0 ∧
      predict_position lat lon ve vn (-t) =
        predict_position lat lon (-ve) (-vn) t ∧
      0 ≤ displacement_mm ve vn t := by
  refine ⟨?_, ?_, Real.sqrt_nonneg _⟩
  · rw [years_between, div_nonpos_iff]
    right
    constructor
    · have hc : (d2 : ℝ) ≤ (d1 : ℝ) := by exact_mod_cast h
      linarith
    · norm_num
  · simp only [predict_position, degrees, Prod.mk.injEq]
    constructor <;> ring

/-- Witness for `degenerate_span_defined` at a concrete input. -/
theorem degenerate_span_defined_witness :
    (3 : ℤ) ≤ 10 ∧
      (years_between 10 3 ≤ 0 ∧
        predict_position 1 2 30 40 (-7) = predict_position 1 2 (-30) (-40) 7 ∧
        0 ≤ displacement_mm 30 40 7) :=
  ⟨by decide, degenerate_span_defined 10 3 (by decide) 1 2 30 40 7⟩

/-- **C4 counterexample.** At latitude `90` the code silently returns a
value: `predict_position 90 0 0 0 1 = (90, 0)`, while the spec-modelled
checked variant (epsilon `10⁻⁹`) signals an out-of-domain failure (`none`).
No typed error is surfaced by the code. -/
theorem predict_pole_no_error :
    predict_position 90 0 0 0 1 = (90, 0) ∧
      predictChecked (1 / 1000000000) 90 0 0 0 1 = none := by
  constructor
  · simp [predict_position, degrees]
  · rw [predictChecked, if_pos]
    norm_num

/-- **C4 (amended).** `predict_position` performs no domain validation: for
every latitude within any epsilon of the poles — where the spec-modelled
`predictChecked` returns the typed failure `none` — the code still returns
the planar-formula pair, silently. -/
theorem predict_position_total_near_pole (eps lat lon ve vn t : ℝ)
    (hl : 90 - eps ≤ |lat|) :
    predictChecked eps lat lon ve vn t = none ∧
      predict_position lat lon ve vn t =
        (lat + degrees (vn / 1000 * t / R),
         lon + degrees (ve / 1000 * t / (R * Real.cos (radians lat)))) := by
  refine ⟨?_, rfl⟩
  rw [predictChecked, if_pos hl]

/-- Witness for `predict_position_total_near_pole` at a concrete input. -/
theorem predict_position_total_near_pole_witness :
    (90 : ℝ) - 1 ≤ |(90 : ℝ)| ∧
      (predictChecked 1 90 0 3 4 5 = none ∧
        predict_position 90 0 3 4 5 =
          (90 + degrees (4 / 1000 * 5 / R),
           0 + degrees (3 / 1000 * 5 / (R * Real.cos (radians 90))))) :=
  ⟨by norm_num, predict_position_total_near_pole 1 90 0 3 4 5 (by norm_num)⟩

/-- The latitude component of the round trip is exactly the original
latitude: the linear latitude update cancels perfectly. -/
lemma roundtrip_fst (lat lon ve vn t : ℝ) :
    (roundtrip lat lon ve vn t).1 = lat := by
  simp only [roundtrip, predict_position, degrees]
  ring

/-- Unfolded form of the longitude component of the round trip. -/
lemma roundtrip_snd_eq (lat lon ve vn t : ℝ) :
    (roundtrip lat lon ve vn t).2 =
      lon + degrees (ve / 1000 * t / (R * Real.cos (radians lat))) +
        degrees (ve / 1000 * -t /
          (R * Real.cos (radians (lat + degrees (vn / 1000 * t / R))))) := by
  rfl

/-- Away from the poles, the longitude component of the round trip tends to
the original longitude as the elapsed time tends to `0`. -/
lemma roundtrip_snd_tendsto (lat lon ve vn : ℝ)
    (h : Real.cos (radians lat) ≠ 0) :
    Filter.Tendsto (fun t => (roundtrip lat lon ve vn t).2)
      (nhds 0) (nhds lon) := by
  have hR : R ≠ 0 := by norm_num [R]
  have hden : R * Real.cos (radians lat) ≠ 0 := mul_ne_zero hR h
  have hfun : (fun t => (roundtrip lat lon ve vn t).2) =
      fun t => lon + degrees (ve / 1000 * t / (R * Real.cos (radians lat))) +
        degrees (ve / 1000 * -t /
          (R * Real.cos (radians (lat + degrees (vn / 1000 * t / R))))) :=
    funext fun t => roundtrip_snd_eq lat lon ve vn t
  rw [hfun]
  have hg : ContinuousAt
      (fun t : ℝ => radians (lat + degrees (vn / 1000 * t / R))) 0 := by
    simp only [radians, degrees]
    exact ((continuousAt_const.add
      (((continuousAt_const.mul continuousAt_id).div continuousAt_const
        hR).mul continuousAt_const)).mul continuousAt_const)
  have hcos : ContinuousAt
      (fun t : ℝ => Real.cos (radians (lat + degrees (vn / 1000 * t / R)))) 0 :=
    Real.continuous_cos.continuousAt.comp hg
  have hval : R * Real.cos (radians (lat + degrees (vn / 1000 * (0:ℝ) / R))) ≠
      0 := by
    simpa [degrees] using hden
  have hterm2 : ContinuousAt (fun t : ℝ => degrees (ve / 1000 * -t /
      (R * Real.cos (radians (lat + degrees (vn / 1000 * t / R)))))) 0 := by
    simp only [degrees]
    exact (((continuousAt_const.mul continuousAt_id.neg).div
      (continuousAt_const.mul hcos) hval).mul continuousAt_const)
  have hterm1 : ContinuousAt (fun t : ℝ =>
      degrees (ve / 1000 * t / (R * Real.cos (radians lat)))) 0 := by
    simp only [degrees]
    exact (((continuousAt_const.mul continuousAt_id).div continuousAt_const
      hden).mul continuousAt_const)
  have hc : ContinuousAt (fun t : ℝ =>
      lon + degrees (ve / 1000 * t / (R * Real.cos (radians lat))) +
        degrees (ve / 1000 * -t /
          (R * Real.cos (radians (lat + degrees (vn / 1000 * t / R)))))) 0 :=
    (continuousAt_const.add hterm1).add hterm2
  have hzero : lon + degrees (ve / 1000 * (0:ℝ) /
        (R * Real.cos (radians lat))) +
      degrees (ve / 1000 * -(0:ℝ) /
        (R * Real.cos (radians (lat + degrees (vn / 1000 * (0:ℝ) / R))))) =
      lon := by
    simp [degrees]
  have := hc.tendsto
  rw [hzero] at this
  exact this

/-- **C6.** Round trip: away from the poles, for every tolerance there is a
bound on the elapsed time below which predicting forward by `t` and then
backward by `-t` from the result returns the original point to within that
tolerance (latitude is in fact recovered exactly). -/
theorem roundtrip_approx_identity (lat lon ve vn : ℝ)
    (h : Real.cos (radians lat) ≠ 0) (eps : ℝ) (heps : 0 < eps) :
    ∃ delta > 0, ∀ t : ℝ, |t| < delta →
      |(roundtrip lat lon ve vn t).1 - lat| < eps ∧
      |(roundtrip lat lon ve vn t).2 - lon| < eps := by
  have h2 := roundtrip_snd_tendsto lat lon ve vn h
  rw [Metric.tendsto_nhds_nhds] at h2
  obtain ⟨delta, hdelta, hd⟩ := h2 eps heps
  refine ⟨delta, hdelta, fun t ht => ⟨?_, ?_⟩⟩
  · rw [roundtrip_fst]
    simpa using heps
  · have hdist : dist t 0 < delta := by
      rw [Real.dist_eq, sub_zero]
      exact ht
    have := hd hdist
    rw [Real.dist_eq] at this
    exact this

/-- Witness for `roundtrip_approx_identity` at a concrete input. -/
theorem roundtrip_approx_identity_witness :
    Real.cos (radians 0) ≠ 0 ∧ (0 : ℝ) < 1 ∧
      ∃ delta > 0, ∀ t : ℝ, |t| < delta →
        |(roundtrip 0 7 30 40 t).1 - 0| < 1 ∧
        |(roundtrip 0 7 30 40 t).2 - 7| < 1 := by
  have hc : Real.cos (radians 0) ≠ 0 := by simp [radians]
  exact ⟨hc, by norm_num,
    roundtrip_approx_identity 0 7 30 40 hc 1 (by norm_num)⟩
